import Mathlib

/-!
Shallow embedding of the single-file Streamlit dashboard `src/main.py`
(IPL analytics): the module-level script's name-binding behaviour, the
`load_data` ingestion routine over raw tables, strict date parsing, the
season/team filter derivation, and the per-panel aggregate metrics
(team win statistics, batting detail, bowling detail, wicket credit).
Machine reals of the source (pandas floats) are modelled as rationals;
missing values (NaN) as `Option`; raising operations as `Except`.
-/

namespace DataViz

/-! ## Module-level script model (name binding and evaluation order)

`main.py` runs top to bottom at import time.  Each top-level statement is
transcribed with the set of module-level names it reads (in evaluation
order) and the names it binds; widget/render statements additionally
produce visible output.  Evaluating a statement whose first unread name is
unbound raises a NameError, aborting the run.  The commented-out call
`matches, deliveries = load_data()` (line 22 of the source) is absent from
the transcription, exactly as it is absent from the executing program. -/

inductive Stmt where
  | assign (binds : List String) (reads : List String)
  | expr (reads : List String)
  | render (reads : List String)
  | widget (binds : List String) (reads : List String)
  | validate (reads : List String)
deriving Repr, DecidableEq

def stmtReads : Stmt → List String
  | Stmt.assign _ rs => rs
  | Stmt.expr rs => rs
  | Stmt.render rs => rs
  | Stmt.widget _ rs => rs
  | Stmt.validate rs => rs

def stmtBinds : Stmt → List String
  | Stmt.assign bs _ => bs
  | Stmt.widget bs _ => bs
  | _ => []

def rendersOutput : Stmt → Bool
  | Stmt.render _ => true
  | Stmt.widget _ _ => true
  | _ => false

def isValidateStmt : Stmt → Bool
  | Stmt.validate _ => true
  | _ => false

/-- Run the statements left to right: `env` is the set of bound module
names, `r` the number of output-producing statements executed so far.
A read of an unbound name yields `Except.error (name, r)`: a NameError
raised after `r` pieces of output. -/
def runStmts : List String → Nat → List Stmt → Except (String × Nat) (List String × Nat)
  | env, r, [] => Except.ok (env, r)
  | env, r, s :: rest =>
    match (stmtReads s).find? (fun n => !env.contains n) with
    | some n => Except.error (n, r)
    | none => runStmts (env ++ stmtBinds s) (r + (if rendersOutput s then 1 else 0)) rest

/-- The top-level statements of `src/main.py`, in source order, with the
module names each reads and binds.  Line numbers refer to the source. -/
def mainScript : List Stmt := [
  Stmt.assign ["warnings"] [],                                  -- 1: import warnings
  Stmt.expr ["warnings"],                                       -- 2: warnings.filterwarnings
  Stmt.assign ["pd"] [],                                        -- 4: import pandas as pd
  Stmt.assign ["np"] [],                                        -- 5: import numpy as np
  Stmt.assign ["st"] [],                                        -- 6: import streamlit as st
  Stmt.assign ["px"] [],                                        -- 7: import plotly.express as px
  Stmt.assign ["go"] [],                                        -- 8: import plotly.graph_objects as go
  Stmt.expr ["st"],                                             -- 10: st.set_page_config
  Stmt.assign ["load_data"] ["st"],                             -- 23: @st.cache_data def load_data
  Stmt.expr ["matches", "pd"],                                  -- 53: if "date" in matches.columns
  Stmt.render ["st"],                                           -- 56: st.title
  Stmt.render ["st"],                                           -- 58: st.markdown
  Stmt.render ["st"],                                           -- 65: st.sidebar.header
  Stmt.assign ["seasons"] ["matches"],                          -- 67: seasons = sorted(...)
  Stmt.widget ["selected_seasons"] ["st", "seasons"],           -- 68: sidebar.multiselect
  Stmt.assign ["teams"] ["pd", "matches"],                      -- 74: teams = sorted(pd.unique(...))
  Stmt.widget ["selected_team"] ["st", "teams"],                -- 87: sidebar.selectbox
  Stmt.assign ["matches_f"] ["selected_seasons", "matches"],    -- 93: season filter
  Stmt.assign ["deliveries_f"] ["deliveries", "matches_f"],     -- 98: match_id filter
  Stmt.widget ["tab1", "tab2", "tab3", "tab4"] ["st"],          -- 100: st.tabs
  Stmt.render ["st", "matches_f", "teams", "px"],               -- 107: with tab1 (Overview)
  Stmt.render ["st", "selected_team", "matches_f", "pd", "np", "px"], -- 195: with tab2 (Team)
  Stmt.render ["st", "deliveries_f", "matches_f", "px", "pd"],  -- 323: with tab3 (Batting)
  Stmt.render ["st", "deliveries_f", "matches_f", "px"]         -- 416: with tab4 (Bowling)
]

/-- The two input files of the program, as raw text.  The script never
reads them: `load_data`, the only code that opens them, is bound but never
invoked, so the run result cannot depend on this input. -/
structure FilesInput where
  matchesFile : String
  deliveriesFile : String
deriving Repr, DecidableEq

def scriptRun (_input : FilesInput) : Except (String × Nat) (List String × Nat) :=
  runStmts [] 0 mainScript

/-! ## Raw tables and the `load_data` ingestion routine (lines 23-49)

A raw table is a pandas DataFrame before typing: a list of column names
and rows of cells, a cell being `none` for NaN.  File reads are the
external boundary: a `LoadEnv` records what each of the three `pd.read_csv`
calls would return (`none` = the read raises).  `load_data` is transcribed
from the source: try the default matches read, on failure retry with
`header=None`; if the result has exactly one column, split it on commas
(`str.split(",", expand=True)`, padding short rows with NaN); then assign
the canonical 20 column names — pandas raises a ValueError "Length
mismatch" when the width is not 20 — lowercase/strip the names, read the
deliveries file (unguarded: a failure propagates) and canonicalize its
names. -/

/-- Whitespace for the purposes of `.str.strip()`. -/
def isSpaceChar (c : Char) : Bool := c == ' ' || c == '\t' || c == '\n' || c == '\r'

/-- ASCII lower-casing of one character (`.str.lower()` on column names). -/
def lowerChar (c : Char) : Char :=
  if 'A' ≤ c && c ≤ 'Z' then Char.ofNat (c.toNat + 32) else c

/-- `.str.strip()`: drop leading and trailing whitespace. -/
def trimChars (s : String) : String :=
  String.mk (((s.data.dropWhile isSpaceChar).reverse.dropWhile isSpaceChar).reverse)

/-- `.str.lower()`: ASCII lower-casing of a string. -/
def lowerStr (s : String) : String := String.mk (s.data.map lowerChar)

def splitCharsAux (sep : Char) : List Char → List Char → List String
  | [], acc => [String.mk acc.reverse]
  | c :: cs, acc =>
    if c == sep then String.mk acc.reverse :: splitCharsAux sep cs []
    else splitCharsAux sep cs (c :: acc)

/-- `str.split(sep)` for a one-character separator: `"a,,b"` gives
`["a", "", "b"]` and `""` gives `[""]`. -/
def splitOnSep (sep : Char) (s : String) : List String :=
  splitCharsAux sep s.data []

def digitsToNat : List Char → Nat → Option Nat
  | [], acc => some acc
  | c :: cs, acc =>
    if '0' ≤ c && c ≤ '9' then digitsToNat cs (acc * 10 + (c.toNat - 48))
    else none

/-- Decimal parsing of a string (`none` on an empty or non-digit string). -/
def toNatOpt (s : String) : Option Nat :=
  match s.data with
  | [] => none
  | ds => digitsToNat ds 0

abbrev Cell := Option String

structure RawTable where
  cols : List String
  data : List (List Cell)
deriving Repr, DecidableEq

structure LoadEnv where
  readMatches : Option RawTable
  readMatchesHeaderless : Option RawTable
  readDeliveries : Option RawTable
deriving Repr, DecidableEq

/-- The canonical 20-field match schema of lines 36-40. -/
def canonicalCols : List String :=
  ["id", "season", "city", "date", "match_type", "player_of_match", "venue",
   "team1", "team2", "toss_winner", "toss_decision", "winner", "result",
   "result_margin", "target_runs", "target_overs", "super_over", "method",
   "umpire1", "umpire2"]

/-- `.str.split(",", expand=True)` on one cell: a NaN cell stays a NaN row. -/
def splitRow (r : List Cell) : List Cell :=
  match r.head? with
  | some (some s) => (splitOnSep ',' s).map some
  | _ => []

/-- Line 33: split the single column of a collapsed table on commas; `expand`
pads shorter rows with NaN up to the widest split and numbers the columns. -/
def splitExpand (t : RawTable) : RawTable :=
  let rows := t.data.map splitRow
  let w := rows.foldr (fun r m => max r.length m) 0
  { cols := (List.range w).map (fun i => toString i),
    data := rows.map (fun r => r ++ List.replicate (w - r.length) none) }

/-- `df.columns = names`: pandas raises ValueError on a length mismatch. -/
def setColumns (t : RawTable) (names : List String) : Except String RawTable :=
  if t.cols.length = names.length then Except.ok { t with cols := names }
  else Except.error "Length mismatch"

/-- `.str.strip().str.lower()` applied to a column name. -/
def canonicalize (s : String) : String := lowerStr (trimChars s)

/-- Lines 23-49 of the source, over the read outcomes in `env`. -/
def load_data (env : LoadEnv) : Except String (RawTable × RawTable) :=
  match env.readMatches.orElse (fun _ => env.readMatchesHeaderless) with
  | none => Except.error "matches read failed"
  | some m0 =>
    let m1 := if m0.cols.length = 1 then splitExpand m0 else m0
    match setColumns m1 canonicalCols with
    | Except.error e => Except.error e
    | Except.ok m2 =>
      let m3 : RawTable := { m2 with cols := m2.cols.map canonicalize }
      match env.readDeliveries with
      | none => Except.error "deliveries read failed"
      | some d0 => Except.ok (m3, { d0 with cols := d0.cols.map canonicalize })

/-- The matches table `load_data` works on: the default read, or on its
failure the `header=None` retry. -/
def matchesAttempt (env : LoadEnv) : Option RawTable :=
  env.readMatches.orElse (fun _ => env.readMatchesHeaderless)

/-- The matches table after the one-column comma-split repair. -/
def repairedMatches (env : LoadEnv) : Option RawTable :=
  (matchesAttempt env).map (fun t => if t.cols.length = 1 then splitExpand t else t)

/-- The column named `c` of a table, as the list of its cells (an
out-of-range position reads as NaN). -/
def getCol (t : RawTable) (c : String) : Option (List Cell) :=
  (t.cols.findIdx? (fun n => n == c)).map (fun i => t.data.map (fun r => (r.get? i).join))

/-- Ingestion environment refuting C8: the matches file collapses to one
column whose rows split into 3 fields, not 20. -/
def env8 : LoadEnv :=
  { readMatches := some ⟨["0"], [[some "a,b,c"]]⟩,
    readMatchesHeaderless := none,
    readDeliveries := some ⟨["match_id"], []⟩ }

/-- Ingestion environment refuting C10: a matches table with exactly the
columns `match_winner`, `team_1`, `team_2` and no `winner`/`team1`/`team2`. -/
def env10 : LoadEnv :=
  { readMatches := some ⟨["match_winner", "team_1", "team_2"],
                         [[some "KKR", some "CSK", some "MI"]]⟩,
    readMatchesHeaderless := none,
    readDeliveries := some ⟨["match_id"], []⟩ }

/-! ## Date parsing (lines 53-54)

`pd.to_datetime(matches["date"])` runs with the default `errors="raise"`:
a missing value passes through as NaT, but a non-null value the parser
cannot read raises.  The parser itself is a third-party boundary, so the
conversion is embedded parametrically in the element parser; `parseDateM`
is one concrete such parser (ISO `YYYY-MM-DD`) used for evaluation. -/

def to_datetime (parse : String → Option Nat) : List Cell → Except String (List (Option Nat))
  | [] => Except.ok []
  | none :: rest =>
    match to_datetime parse rest with
    | Except.ok l => Except.ok (none :: l)
    | Except.error e => Except.error e
  | some s :: rest =>
    match parse s with
    | none => Except.error s
    | some d =>
      match to_datetime parse rest with
      | Except.ok l => Except.ok (some d :: l)
      | Except.error e => Except.error e

/-- A concrete date parser (ISO `YYYY-MM-DD` to `yyyymmdd`), one member of
the family `to_datetime` is parametrized over. -/
def parseDateM (s : String) : Option Nat :=
  match splitOnSep '-' s with
  | [y, m, d] =>
    match toNatOpt y, toNatOpt m, toNatOpt d with
    | some yn, some mn, some dn =>
      if 1 ≤ mn ∧ mn ≤ 12 ∧ 1 ≤ dn ∧ dn ≤ 31 then some (yn * 10000 + mn * 100 + dn)
      else none
    | _, _, _ => none
  | _ => none

/-! ## Typed rows and the filter derivation (lines 93-98)

After normalization the analytics code reads typed columns; rows are
embedded as structures with `Option` for nullable fields.  NaN keys are
dropped by pandas `groupby` and compare unequal under `isin`/`==`. -/

structure MatchRow where
  id : String
  season : Option String
  team1 : Option String
  team2 : Option String
  winner : Option String
deriving Repr, DecidableEq

structure DeliveryRow where
  match_id : String
  batter : String
  bowler : String
  batsman_runs : Int
  total_runs : Int
  is_wicket : Int
  dismissal_kind : Option String
  extras_type : Option String
deriving Repr, DecidableEq

/-- `series.isin(vals)` on a nullable string cell: NaN is in no list. -/
def isin (vals : List String) (c : Option String) : Bool :=
  match c with
  | some s => vals.contains s
  | none => false

/-- `matches["season"].isin(selected_seasons)` for one row. -/
def seasonIn (S : List String) (m : MatchRow) : Bool :=
  isin S m.season

/-- Lines 93-96: filter by the selected seasons when the selection is
non-empty (Python truthiness), otherwise keep the full table (`copy`). -/
def matches_f (ms : List MatchRow) (S : List String) : List MatchRow :=
  if !S.isEmpty then ms.filter (seasonIn S) else ms

def ids (ms : List MatchRow) : List String := ms.map (fun m => m.id)

/-- Line 98: `deliveries[deliveries["match_id"].isin(matches_f["id"])]`. -/
def deliveries_f (ds : List DeliveryRow) (mf : List MatchRow) : List DeliveryRow :=
  ds.filter (fun d => (ids mf).contains d.match_id)

/-! ## Bowling wicket credit (lines 421-432 and 464-466) -/

/-- The dismissal kinds not credited to the bowler (line 423). -/
def excludedKinds : List String := ["run out", "retired hurt", "obstructing the field"]

/-- Lines 421-424: deliveries with `is_wicket == 1` whose `dismissal_kind`
is not one of the excluded kinds. -/
def wicket_df (df : List DeliveryRow) : List DeliveryRow :=
  df.filter (fun d => d.is_wicket == 1 && !(isin excludedKinds d.dismissal_kind))

/-- `groupby(key)[col].count()` as the list of (key, group size) pairs over
the distinct keys. -/
def groupCountBy {α : Type} (key : α → String) (l : List α) : List (String × Nat) :=
  ((l.map key).dedup).map (fun k => (k, l.countP (fun x => key x == k)))

/-- Lines 426-432: credited wickets per bowler (the leaderboard table). -/
def bowler_wk (df : List DeliveryRow) : List (String × Nat) :=
  groupCountBy (fun d => d.bowler) (wicket_df df)

/-- A bowler's leaderboard tally (0 when the bowler has no credited wicket,
hence no leaderboard row). -/
def wkTally (df : List DeliveryRow) (b : String) : Nat :=
  ((bowler_wk df).lookup b).getD 0

/-- Lines 464-466: the player-detail wickets metric,
`wicket_df[wicket_df["bowler"] == selected_bowler].shape[0]`. -/
def wickets_taken (df : List DeliveryRow) (b : String) : Nat :=
  ((wicket_df df).filter (fun d => d.bowler == b)).length

/-! ## Team statistics (lines 203-231) -/

/-- `groupby` over a nullable key column: NaN keys are dropped. -/
def groupCountOpt (key : MatchRow → Option String) (ms : List MatchRow) : List (String × Nat) :=
  ((ms.filterMap key).dedup).map (fun k => (k, ms.countP (fun m => key m == some k)))

def lookup0 (l : List (String × Nat)) (k : String) : Nat := (l.lookup k).getD 0

/-- Lines 203-208: appearances as `team1`. -/
def team_matches1 (ms : List MatchRow) : List (String × Nat) :=
  groupCountOpt (fun m => m.team1) ms

/-- Lines 209-214: appearances as `team2`. -/
def team_matches2 (ms : List MatchRow) : List (String × Nat) :=
  groupCountOpt (fun m => m.team2) ms

/-- Lines 218-223: wins grouped by `winner`. -/
def team_wins (ms : List MatchRow) : List (String × Nat) :=
  groupCountOpt (fun m => m.winner) ms

/-- The key set of the outer merge of lines 215: teams of `team_matches1`,
then the remaining teams of `team_matches2`. -/
def teamKeys (ms : List MatchRow) : List String :=
  ((team_matches1 ms).map Prod.fst ++ (team_matches2 ms).map Prod.fst).dedup

structure TeamStat where
  team : String
  matches_home : Nat
  matches_away : Nat
  matches_played : Nat
  wins : Nat
  win_pct : ℚ
deriving Repr, DecidableEq

/-- One row of `team_stats` (lines 215-230): outer-merged appearance counts
filled to 0, left-joined wins filled to 0, and the `np.where`-guarded win
percentage. -/
def mkTeamStat (ms : List MatchRow) (t : String) : TeamStat :=
  let home := lookup0 (team_matches1 ms) t
  let away := lookup0 (team_matches2 ms) t
  let played := home + away
  let winCount := lookup0 (team_wins ms) t
  { team := t, matches_home := home, matches_away := away, matches_played := played,
    wins := winCount,
    win_pct := if played > 0 then ((winCount : ℚ) / (played : ℚ)) * 100 else 0 }

/-- Insertion step for the `sort_values("wins", ascending=False)` of line 231. -/
def insertByWins (r : TeamStat) : List TeamStat → List TeamStat
  | [] => [r]
  | x :: xs => if x.wins ≤ r.wins then r :: x :: xs else x :: insertByWins r xs

def sortByWins : List TeamStat → List TeamStat
  | [] => []
  | x :: xs => insertByWins x (sortByWins xs)

/-- Lines 203-231: the full `team_stats` table, sorted by wins descending. -/
def team_stats (ms : List MatchRow) : List TeamStat :=
  sortByWins ((teamKeys ms).map (mkTeamStat ms))

/-! ## Rounding

Python's `round(x, 2)` rounds half to even; on rationals:
shift by 100, round half-even to an integer, shift back. -/

def roundHalfEven (q : ℚ) : ℤ :=
  let f := ⌊q⌋
  if q - f < (1 : ℚ) / 2 then f
  else if (1 : ℚ) / 2 < q - f then f + 1
  else if f % 2 = 0 then f else f + 1

def rnd2 (q : ℚ) : ℚ := ((roundHalfEven (q * 100) : ℚ)) / 100

/-! ## Batting detail (lines 356-362) -/

/-- Line 356: `deliveries_f[deliveries_f["batter"] == selected_batter]`. -/
def p_df (df : List DeliveryRow) (b : String) : List DeliveryRow :=
  df.filter (fun d => d.batter == b)

def total_runs (df : List DeliveryRow) (b : String) : Int :=
  ((p_df df b).map (fun d => d.batsman_runs)).sum

def total_balls (df : List DeliveryRow) (b : String) : Nat :=
  (p_df df b).length

def fours (df : List DeliveryRow) (b : String) : Nat :=
  (p_df df b).countP (fun d => d.batsman_runs == 4)

def sixes (df : List DeliveryRow) (b : String) : Nat :=
  (p_df df b).countP (fun d => d.batsman_runs == 6)

/-- Line 362: `round((total_runs / total_balls) * 100, 2) if total_balls > 0 else 0`. -/
def strike_rate (df : List DeliveryRow) (b : String) : ℚ :=
  if total_balls df b > 0 then
    rnd2 (((total_runs df b : ℚ) / (total_balls df b : ℚ)) * 100)
  else 0

/-! ## Bowling detail (lines 454-463) -/

/-- Line 454: `deliveries_f[deliveries_f["bowler"] == selected_bowler]`. -/
def b_df (df : List DeliveryRow) (b : String) : List DeliveryRow :=
  df.filter (fun d => d.bowler == b)

/-- The extras types excluded from the legal-ball count (line 456). -/
def extrasExcluded : List String := ["wides", "noballs"]

/-- Lines 455-458: drop wides and no-balls when the `extras_type` column
exists, otherwise keep every delivery. -/
def legal_del (hasExtrasCol : Bool) (bdf : List DeliveryRow) : List DeliveryRow :=
  if hasExtrasCol then bdf.filter (fun d => !(isin extrasExcluded d.extras_type)) else bdf

def runs_conceded (df : List DeliveryRow) (b : String) : Int :=
  ((b_df df b).map (fun d => d.total_runs)).sum

def balls_bowled (hasExtrasCol : Bool) (df : List DeliveryRow) (b : String) : Nat :=
  (legal_del hasExtrasCol (b_df df b)).length

/-- Line 462: `balls_bowled / 6 if balls_bowled > 0 else 0`. -/
def overs (hasExtrasCol : Bool) (df : List DeliveryRow) (b : String) : ℚ :=
  if balls_bowled hasExtrasCol df b > 0 then (balls_bowled hasExtrasCol df b : ℚ) / 6 else 0

/-- Line 463: `round(runs_conceded / overs, 2) if overs > 0 else 0`. -/
def economy (hasExtrasCol : Bool) (df : List DeliveryRow) (b : String) : ℚ :=
  if overs hasExtrasCol df b > 0 then
    rnd2 ((runs_conceded df b : ℚ) / overs hasExtrasCol df b)
  else 0

/-! ## Concrete evaluation inputs -/

/-- A 20-column matches table whose alias columns (`match_winner`,
`team_1`, `team_2`) sit at non-canonical positions. -/
def tW : RawTable :=
  { cols := ["match_winner", "team_1", "team_2", "c3", "c4", "c5", "c6", "c7",
             "c8", "c9", "c10", "c11", "c12", "c13", "c14", "c15", "c16", "c17",
             "c18", "c19"],
    data := [[some "a0", some "a1", some "a2", some "a3", some "a4", some "a5",
              some "a6", some "a7", some "a8", some "a9", some "a10", some "a11",
              some "a12", some "a13", some "a14", some "a15", some "a16",
              some "a17", some "a18", some "a19"]] }

def dW : RawTable := { cols := ["match_id"], data := [] }

def envW : LoadEnv :=
  { readMatches := some tW, readMatchesHeaderless := none, readDeliveries := some dW }

/-- A small concrete match table for evaluating the team statistics. -/
def msW : List MatchRow :=
  [{ id := "1", season := some "2020", team1 := some "CSK", team2 := some "MI",
     winner := some "CSK" },
   { id := "2", season := some "2021", team1 := some "MI", team2 := some "CSK",
     winner := some "MI" }]

/-! ## Theorems -/

/-- C1: executing the top-level script halts with a NameError on the name
`matches` before any output-producing statement has run (the error payload
records 0 renders), for every pair of input files; and no statement of the
script ever reads (invokes) `load_data`. -/
theorem c1_unbound_matches_halts (input : FilesInput) :
    scriptRun input = Except.error ("matches", 0) ∧
    mainScript.all (fun s => !(stmtReads s).contains "load_data") = true :=
  ⟨rfl, rfl⟩

/-- C2 counterexample: on a concrete input whose matches file lacks the
required columns, the run produces no missing-column diagnostic — it halts
with a NameError on `matches` after zero renders — and the script contains
no validation statement at all. -/
theorem c2_cex_no_diagnostic :
    scriptRun ⟨"id,season", "match_id,batter"⟩ = Except.error ("matches", 0) ∧
    mainScript.countP isValidateStmt = 0 :=
  ⟨rfl, rfl⟩

/-- C2 (amended): the program performs no schema validation — the script
contains no column-presence check and presents no missing-column
diagnostic; on every input the render pass instead terminates with an
unbound-name error on `matches` before any panel executes, so no partial
output is shown. -/
theorem c2_no_validation_gate (input : FilesInput) :
    mainScript.countP isValidateStmt = 0 ∧
    scriptRun input = Except.error ("matches", 0) :=
  ⟨rfl, rfl⟩

/-- C3: for a non-empty season selection `S`, `matches_f` holds exactly the
match rows whose season is in `S`; for an empty `S` it is the full table;
and `deliveries_f` holds exactly the delivery rows whose `match_id` is
among the ids of `matches_f`. -/
theorem c3_filter_derivation (ms : List MatchRow) (ds : List DeliveryRow) (S : List String) :
    (S = [] → matches_f ms S = ms) ∧
    (∀ m, S ≠ [] → (m ∈ matches_f ms S ↔ m ∈ ms ∧ ∃ s ∈ S, m.season = some s)) ∧
    (∀ d, d ∈ deliveries_f ds (matches_f ms S) ↔
       d ∈ ds ∧ ∃ m ∈ matches_f ms S, d.match_id = m.id) := by
  refine ⟨?_, ?_, ?_⟩
  · intro h; subst h; simp [matches_f]
  · intro m hS
    have hne : (!S.isEmpty) = true := by
      cases S with
      | nil => exact absurd rfl hS
      | cons a l => rfl
    rw [matches_f, if_pos hne, List.mem_filter]
    cases hms : m.season with
    | none => simp [seasonIn, isin, hms]
    | some s => simp [seasonIn, isin, hms, List.elem_iff, eq_comm]
  · intro d
    rw [deliveries_f, List.mem_filter]
    simp only [ids, List.elem_iff, List.mem_map]
    constructor
    · rintro ⟨hd, x, hx, hxe⟩
      exact ⟨hd, x, hx, hxe.symm⟩
    · rintro ⟨hd, x, hx, hxe⟩
      exact ⟨hd, x, hx, hxe.symm⟩

/-- A lookup in an association list built by pairing each key with a value
computed from it. -/
theorem lookup_map_mk (ks : List String) (f : String → Nat) (t : String) :
    (ks.map (fun k => (k, f k))).lookup t = if t ∈ ks then some (f t) else none := by
  induction ks with
  | nil => simp
  | cons k ks ih =>
    simp only [List.map_cons, List.lookup]
    cases h : (t == k) with
    | true =>
      have ht : t = k := by simpa using h
      subst ht
      simp
    | false =>
      have ht : t ≠ k := by simpa using h
      rw [ih]
      simp [ht]

theorem countP_eq_zero_of_not_mem_map {α : Type} (key : α → String) (l : List α) (t : String)
    (h : t ∉ l.map key) : l.countP (fun x => key x == t) = 0 := by
  rw [List.countP_eq_zero]
  intro a ha
  simp only [beq_iff_eq]
  intro heq
  exact h (heq ▸ List.mem_map_of_mem key ha)

/-- A group count looked up for one key is the predicate count over the
whole list (0 when the key never occurs and hence forms no group). -/
theorem groupCountBy_lookup {α : Type} (key : α → String) (l : List α) (t : String) :
    ((groupCountBy key l).lookup t).getD 0 = l.countP (fun x => key x == t) := by
  unfold groupCountBy
  rw [lookup_map_mk]
  by_cases h : t ∈ (l.map key).dedup
  · simp [h]
  · rw [if_neg h]
    simp only [Option.getD_none]
    exact (countP_eq_zero_of_not_mem_map key l t (by simpa [List.mem_dedup] using h)).symm

/-- The boolean wicket-credit filter of lines 421-424 matches the
propositional credit rule. -/
theorem credited_bool_iff (d : DeliveryRow) :
    (d.is_wicket == 1 && !(isin excludedKinds d.dismissal_kind)) = true ↔
      (d.is_wicket = 1 ∧ ∀ k ∈ excludedKinds, d.dismissal_kind ≠ some k) := by
  cases hdk : d.dismissal_kind with
  | none => simp [isin, excludedKinds, hdk]
  | some s => simp [isin, excludedKinds, hdk, List.elem_iff]

/-- C4: a delivery belongs to `wicket_df` exactly when `is_wicket = 1` and
its dismissal kind is none of the excluded kinds; both the leaderboard
tally and the player-detail wickets metric count exactly the deliveries of
that bowler satisfying the credit rule. -/
theorem c4_wicket_credit (df : List DeliveryRow) (b : String) :
    (∀ d, d ∈ wicket_df df ↔
       d ∈ df ∧ (d.is_wicket = 1 ∧ ∀ k ∈ excludedKinds, d.dismissal_kind ≠ some k)) ∧
    wkTally df b =
      df.countP (fun d => decide (d.bowler = b ∧ d.is_wicket = 1 ∧
        ∀ k ∈ excludedKinds, d.dismissal_kind ≠ some k)) ∧
    wickets_taken df b =
      df.countP (fun d => decide (d.bowler = b ∧ d.is_wicket = 1 ∧
        ∀ k ∈ excludedKinds, d.dismissal_kind ≠ some k)) := by
  have hcnt : ∀ d : DeliveryRow,
      ((d.bowler == b) && (d.is_wicket == 1 && !(isin excludedKinds d.dismissal_kind)))
      = decide (d.bowler = b ∧ d.is_wicket = 1 ∧
          ∀ k ∈ excludedKinds, d.dismissal_kind ≠ some k) := by
    intro d
    cases hb : (d.is_wicket == 1 && !(isin excludedKinds d.dismissal_kind)) with
    | false =>
      have hnc : ¬(d.is_wicket = 1 ∧ ∀ k ∈ excludedKinds, d.dismissal_kind ≠ some k) := by
        intro hc
        rw [(credited_bool_iff d).mpr hc] at hb
        exact absurd hb (by simp)
      simp [hnc]
    | true =>
      have hc := (credited_bool_iff d).mp hb
      by_cases hbb : d.bowler = b
      · simp [hbb, hc.1]
        exact hc.2
      · simp [hbb]
  refine ⟨fun d => by rw [wicket_df, List.mem_filter, credited_bool_iff d], ?_, ?_⟩
  · rw [wkTally, bowler_wk, groupCountBy_lookup, wicket_df, List.countP_filter]
    apply List.countP_congr
    intro d _
    rw [← hcnt d, Bool.and_comm]
  · rw [wickets_taken, ← List.countP_eq_length_filter, wicket_df, List.countP_filter]
    apply List.countP_congr
    intro d _
    rw [← hcnt d, Bool.and_comm]

theorem countP_opt_eq_zero (key : MatchRow → Option String) (ms : List MatchRow) (t : String)
    (h : t ∉ ms.filterMap key) : ms.countP (fun m => key m == some t) = 0 := by
  rw [List.countP_eq_zero]
  intro m hm
  simp only [beq_iff_eq]
  intro heq
  exact h (List.mem_filterMap.mpr ⟨m, hm, heq⟩)

/-- A zero-filled lookup in a grouped count over a nullable key column is
the predicate count over the whole table. -/
theorem groupCountOpt_lookup0 (key : MatchRow → Option String) (ms : List MatchRow) (t : String) :
    lookup0 (groupCountOpt key ms) t = ms.countP (fun m => key m == some t) := by
  unfold lookup0 groupCountOpt
  rw [lookup_map_mk]
  by_cases h : t ∈ (ms.filterMap key).dedup
  · simp [h]
  · rw [if_neg h]
    simp only [Option.getD_none]
    exact (countP_opt_eq_zero key ms t (by simpa [List.mem_dedup] using h)).symm

theorem mem_insertByWins (r x : TeamStat) (l : List TeamStat) :
    x ∈ insertByWins r l ↔ x = r ∨ x ∈ l := by
  induction l with
  | nil => simp [insertByWins]
  | cons a l ih =>
    rw [insertByWins]
    by_cases h : a.wins ≤ r.wins
    · simp [h, List.mem_cons]
    · rw [if_neg h]
      simp only [List.mem_cons, ih]
      tauto

/-- The display sort of line 231 only reorders the team rows. -/
theorem mem_sortByWins (x : TeamStat) (l : List TeamStat) :
    x ∈ sortByWins l ↔ x ∈ l := by
  induction l with
  | nil => simp [sortByWins]
  | cons a l ih =>
    rw [sortByWins, mem_insertByWins]
    simp [ih]

/-- The outer-merge key set holds exactly the teams that appear as `team1`
or as `team2`. -/
theorem mem_teamKeys (ms : List MatchRow) (t : String) :
    t ∈ teamKeys ms ↔ (∃ m ∈ ms, m.team1 = some t) ∨ (∃ m ∈ ms, m.team2 = some t) := by
  unfold teamKeys team_matches1 team_matches2 groupCountOpt
  simp [List.mem_dedup, List.map_map, Function.comp, List.mem_filterMap]

/-- C5: every team appearing in the filtered matches table (as `team1` or
`team2`) has a `team_stats` row whose `matches_played` is its appearance
count as `team1` plus its appearance count as `team2` (absent counts read
as zero), whose `wins` is its count as `winner` (absent reads as zero),
and whose `win_pct` is `wins / matches_played * 100` when
`matches_played > 0` and `0` otherwise — a total expression, never a
division error. -/
theorem c5_team_stats (ms : List MatchRow) (t : String)
    (h : ∃ m ∈ ms, m.team1 = some t ∨ m.team2 = some t) :
    ∃ r ∈ team_stats ms, r.team = t ∧
      r.matches_played =
        ms.countP (fun m => m.team1 == some t) + ms.countP (fun m => m.team2 == some t) ∧
      r.wins = ms.countP (fun m => m.winner == some t) ∧
      r.win_pct =
        (if 0 < r.matches_played then ((r.wins : ℚ) / (r.matches_played : ℚ)) * 100 else 0) := by
  have hkey : t ∈ teamKeys ms := by
    rw [mem_teamKeys]
    rcases h with ⟨m, hm, h1 | h2⟩
    · exact Or.inl ⟨m, hm, h1⟩
    · exact Or.inr ⟨m, hm, h2⟩
  refine ⟨mkTeamStat ms t, ?_, rfl, ?_, ?_, ?_⟩
  · rw [team_stats, mem_sortByWins, List.mem_map]
    exact ⟨t, hkey, rfl⟩
  · show lookup0 (team_matches1 ms) t + lookup0 (team_matches2 ms) t = _
    rw [team_matches1, team_matches2, groupCountOpt_lookup0, groupCountOpt_lookup0]
  · show lookup0 (team_wins ms) t = _
    rw [team_wins, groupCountOpt_lookup0]
  · rfl

/-- C5 witness: the team statistics property instantiated on the concrete
two-match table `msW` for the team `CSK`. -/
theorem c5_team_stats_witness :
    (∃ m ∈ msW, m.team1 = some "CSK" ∨ m.team2 = some "CSK") ∧
    (∃ r ∈ team_stats msW, r.team = "CSK" ∧
      r.matches_played =
        msW.countP (fun m => m.team1 == some "CSK") +
          msW.countP (fun m => m.team2 == some "CSK") ∧
      r.wins = msW.countP (fun m => m.winner == some "CSK") ∧
      r.win_pct =
        (if 0 < r.matches_played then ((r.wins : ℚ) / (r.matches_played : ℚ)) * 100 else 0)) :=
  ⟨by decide, c5_team_stats msW "CSK" (by decide)⟩

theorem sum_map_filter_ite (l : List DeliveryRow) (q : DeliveryRow → Prop) [DecidablePred q]
    (f : DeliveryRow → Int) :
    ((l.filter (fun d => decide (q d))).map f).sum
      = (l.map (fun d => if q d then f d else 0)).sum := by
  induction l with
  | nil => rfl
  | cons a l ih =>
    rw [List.filter_cons]
    by_cases h : q a
    · simp [h, ih]
    · simp [h, ih]

/-- C6: a bowler's runs conceded sum `total_runs` over all of the bowler's
deliveries (no wicket-credit filter); legal balls count the bowler's
deliveries, excluding wides and no-balls exactly when the `extras_type`
column exists; overs are legal balls over six (also in the zero case); and
the economy rate is runs conceded over overs rounded to 2 decimals when
overs are positive, else 0. -/
theorem c6_bowler_detail (hasExtrasCol : Bool) (df : List DeliveryRow) (b : String) :
    runs_conceded df b = (df.map (fun d => if d.bowler = b then d.total_runs else 0)).sum ∧
    balls_bowled hasExtrasCol df b =
      df.countP (fun d => d.bowler == b && (!hasExtrasCol || !(isin extrasExcluded d.extras_type))) ∧
    overs hasExtrasCol df b = (balls_bowled hasExtrasCol df b : ℚ) / 6 ∧
    economy hasExtrasCol df b =
      (if overs hasExtrasCol df b > 0 then
        rnd2 ((runs_conceded df b : ℚ) / overs hasExtrasCol df b) else 0) := by
  refine ⟨?_, ?_, ?_, rfl⟩
  · rw [runs_conceded, b_df]
    exact sum_map_filter_ite df (fun d => d.bowler = b) (fun d => d.total_runs)
  · cases hasExtrasCol with
    | false =>
      rw [balls_bowled, legal_del, if_neg (by simp), b_df, ← List.countP_eq_length_filter]
      apply List.countP_congr
      intro d _
      simp
    | true =>
      rw [balls_bowled, legal_del, if_pos rfl, b_df, List.filter_filter,
        ← List.countP_eq_length_filter]
      apply List.countP_congr
      intro d _
      simp [Bool.and_comm]
  · by_cases h : balls_bowled hasExtrasCol df b > 0
    · rw [overs, if_pos h]
    · rw [overs, if_neg h]
      have hz : balls_bowled hasExtrasCol df b = 0 := by omega
      rw [hz]
      norm_num

/-- C7: a batter's total runs sum `batsman_runs` over the batter's
deliveries; balls faced count those rows; fours and sixes count the rows
with `batsman_runs` 4 resp. 6; and the strike rate is runs over balls
times 100 rounded to 2 decimals when balls are positive, else 0. -/
theorem c7_batter_detail (df : List DeliveryRow) (b : String) :
    total_runs df b = (df.map (fun d => if d.batter = b then d.batsman_runs else 0)).sum ∧
    total_balls df b = df.countP (fun d => d.batter == b) ∧
    fours df b = df.countP (fun d => d.batter == b && d.batsman_runs == 4) ∧
    sixes df b = df.countP (fun d => d.batter == b && d.batsman_runs == 6) ∧
    strike_rate df b =
      (if 0 < df.countP (fun d => d.batter == b) then
        rnd2 ((((df.map (fun d => if d.batter = b then d.batsman_runs else 0)).sum : Int) : ℚ) /
          ((df.countP (fun d => d.batter == b) : Nat) : ℚ) * 100)
      else 0) := by
  have h1 : total_runs df b
      = (df.map (fun d => if d.batter = b then d.batsman_runs else 0)).sum := by
    rw [total_runs, p_df]
    exact sum_map_filter_ite df (fun d => d.batter = b) (fun d => d.batsman_runs)
  have h2 : total_balls df b = df.countP (fun d => d.batter == b) := by
    rw [total_balls, p_df, ← List.countP_eq_length_filter]
  have h3 : fours df b = df.countP (fun d => d.batter == b && d.batsman_runs == 4) := by
    rw [fours, p_df, List.countP_filter]
    apply List.countP_congr
    intro d _
    rw [Bool.and_comm]
  have h4 : sixes df b = df.countP (fun d => d.batter == b && d.batsman_runs == 6) := by
    rw [sixes, p_df, List.countP_filter]
    apply List.countP_congr
    intro d _
    rw [Bool.and_comm]
  refine ⟨h1, h2, h3, h4, ?_⟩
  rw [strike_rate, h1, h2]

/-- C8 counterexample: exactly the claim's own example — a matches file
collapsed to one column whose rows split into 3 fields, not 20 — makes
`load_data` raise a length-mismatch error instead of returning normally. -/
theorem c8_cex_load_raises : load_data env8 = Except.error "Length mismatch" :=
  rfl

/-- C8 (amended): `load_data` suppresses only a failure of the first
matches read.  It returns normally exactly when some matches read
succeeds, the repaired matches table has exactly 20 columns, and the
deliveries read succeeds; in every other case — including the one-column
collapse that does not split into 20 fields — it raises. -/
theorem c8_load_success_characterization (env : LoadEnv) :
    (∃ p, load_data env = Except.ok p) ↔
      ((∃ t, repairedMatches env = some t ∧ t.cols.length = 20) ∧
        env.readDeliveries.isSome = true) := by
  unfold load_data repairedMatches matchesAttempt setColumns
  cases hm : env.readMatches.orElse (fun _ => env.readMatchesHeaderless) with
  | none => simp
  | some m0 =>
    simp only [Option.map_some']
    by_cases hw : (if m0.cols.length = 1 then splitExpand m0 else m0).cols.length = 20
    · cases hd : env.readDeliveries with
      | none => simp [hw, canonicalCols]
      | some d0 => simp [hw, canonicalCols]
    · simp [hw, canonicalCols]

/-- C9 counterexample: a date column holding one well-formed and one
malformed value makes the strict conversion raise (naming the bad value)
instead of passing it through or nulling it. -/
theorem c9_cex_strict_raises :
    to_datetime parseDateM [some "2024-05-12", some "not a date"] =
      Except.error "not a date" :=
  rfl

/-- C9 (amended): the date conversion runs in strict mode — it succeeds
exactly when every non-null value parses; a null passes through as
absent, but any malformed non-null value makes it raise. -/
theorem c9_to_datetime_success (parse : String → Option Nat) (col : List Cell) :
    (∃ r, to_datetime parse col = Except.ok r) ↔
      ∀ s : String, some s ∈ col → (parse s).isSome = true := by
  induction col with
  | nil => simp [to_datetime]
  | cons c rest ih =>
    cases c with
    | none =>
      simp only [to_datetime]
      constructor
      · rintro ⟨r, hr⟩ s hs
        rcases hmem : to_datetime parse rest with e | l
        · rw [hmem] at hr; exact absurd hr (by simp)
        · rcases List.mem_cons.mp hs with h | h
          · exact absurd h (by simp)
          · exact (ih.mp ⟨l, hmem⟩) s h
      · intro h
        rcases ih.mpr (fun s hs => h s (List.mem_cons_of_mem _ hs)) with ⟨l, hl⟩
        exact ⟨none :: l, by rw [hl]⟩
    | some s =>
      simp only [to_datetime]
      cases hp : parse s with
      | none =>
        constructor
        · rintro ⟨r, hr⟩; exact absurd hr (by simp)
        · intro h
          have hs := h s (List.mem_cons_self _ _)
          rw [hp] at hs
          exact absurd hs (by simp)
      | some d =>
        constructor
        · rintro ⟨r, hr⟩ u hu
          rcases List.mem_cons.mp hu with h | h
          · cases h; simp [hp]
          · rcases hmem : to_datetime parse rest with e | l
            · rw [hmem] at hr; exact absurd hr (by simp)
            · exact (ih.mp ⟨l, hmem⟩) u h
        · intro h
          rcases ih.mpr (fun u hu => h u (List.mem_cons_of_mem _ hu)) with ⟨l, hl⟩
          exact ⟨some d :: l, by rw [hl]⟩

/-- C10 counterexample: a matches table with exactly the columns
`match_winner`, `team_1`, `team_2` (and no `winner`/`team1`/`team2`) does
not come out of ingestion with reconciled columns — `load_data` raises a
length-mismatch error on it. -/
theorem c10_cex_alias_table_raises : load_data env10 = Except.error "Length mismatch" :=
  rfl

/-- The canonical column names are already stripped and lower-case. -/
theorem canonicalize_cols : canonicalCols.map canonicalize = canonicalCols :=
  rfl

/-- C10 (amended): `load_data` performs no name-based alias
reconciliation: it assigns the canonical 20-name header positionally.
Any matches table read with exactly 20 columns comes out with `team1`,
`team2` and `winner` naming positions 7, 8 and 11 and carrying those
positions' original values, whatever its original headers were; a table
whose width is not 20 (such as one holding only the three alias columns)
makes `load_data` raise instead. -/
theorem c10_positional_schema (env : LoadEnv) (t d : RawTable)
    (hm : env.readMatches = some t) (hw : t.cols.length = 20)
    (hd : env.readDeliveries = some d) :
    ∃ m dl, load_data env = Except.ok (m, dl) ∧
      m.cols = canonicalCols ∧ m.data = t.data ∧
      getCol m "team1" = some (t.data.map (fun r => (r.get? 7).join)) ∧
      getCol m "team2" = some (t.data.map (fun r => (r.get? 8).join)) ∧
      getCol m "winner" = some (t.data.map (fun r => (r.get? 11).join)) := by
  have h20 : canonicalCols.length = 20 := rfl
  refine ⟨⟨canonicalCols, t.data⟩, ⟨d.cols.map canonicalize, d.data⟩,
    ?_, rfl, rfl, rfl, rfl, rfl⟩
  unfold load_data setColumns
  rw [hm]
  simp only [Option.orElse]
  rw [hw, h20]
  norm_num
  rw [hd]
  rw [if_pos hw]
  simp [canonicalize_cols]

/-- C10 witness: the positional-assignment property instantiated on the
concrete 20-column table `tW` whose alias columns sit at non-canonical
positions. -/
theorem c10_positional_schema_witness :
    (envW.readMatches = some tW ∧ tW.cols.length = 20 ∧ envW.readDeliveries = some dW) ∧
    (∃ m dl, load_data envW = Except.ok (m, dl) ∧
      m.cols = canonicalCols ∧ m.data = tW.data ∧
      getCol m "team1" = some (tW.data.map (fun r => (r.get? 7).join)) ∧
      getCol m "team2" = some (tW.data.map (fun r => (r.get? 8).join)) ∧
      getCol m "winner" = some (tW.data.map (fun r => (r.get? 11).join))) :=
  ⟨⟨rfl, rfl, rfl⟩, c10_positional_schema envW tW dW rfl rfl rfl⟩

end DataViz
